import Mathlib

/-!
Verification model of the cleaning-schedule booking app.

The app has two source units:
* a field-extraction service wrapping a remote multimodal model call
  (`extractScheduleFromImages`), and
* a single-page form component (`App`) holding the form record, the selected
  files, the preview handles, the loading flag, the status message and the
  last generated calendar link, together with the calendar-link builder
  (`generateCalendarLink`).

The model below embeds the data flow of both units.  The remote response is
modelled by its body text; the JSON bodies produced under the fixed response
schema of the service are flat objects whose values are strings, so JSON parsing is
modelled by a total parser for flat string-valued objects returning `none` on
malformed input.  JavaScript property access on the parsed object is modelled
by `jsGet` (last assignment wins, absent keys give `none`).  Date parsing of
`"YYYY-MM-DDTHH:MM"` strings follows the ECMAScript date-time string format:
such strings denote wall-clock time in the local zone of the environment, so
the model takes the UTC offset of the local zone in minutes as a parameter; epoch
arithmetic uses the standard proleptic-Gregorian civil-calendar conversion.
-/

/-! ### Flat JSON objects and the parser modelling JSON.parse -/

abbrev JsonObj := List (String × String)

def skipWs : List Char → List Char
  | [] => []
  | c :: cs => if c = ' ' || c = '\n' || c = '\t' || c = '\r' then skipWs cs else c :: cs

def parseJString : List Char → Option (String × List Char)
  | [] => none
  | c :: cs =>
    if c = '"' then some ("", cs)
    else if c = '\\' then none
    else match parseJString cs with
      | some (s, rest) => some (String.singleton c ++ s, rest)
      | none => none

def parsePair (cs : List Char) : Option (String × String × List Char) :=
  match skipWs cs with
  | '"' :: rest =>
    match parseJString rest with
    | some (k, rest1) =>
      match skipWs rest1 with
      | ':' :: rest2 =>
        match skipWs rest2 with
        | '"' :: rest3 =>
          match parseJString rest3 with
          | some (v, r) => some (k, v, r)
          | none => none
        | _ => none
      | _ => none
    | none => none
  | _ => none

def parseMembers : Nat → List Char → Option (JsonObj × List Char)
  | 0, _ => none
  | fuel + 1, cs =>
    match parsePair cs with
    | none => none
    | some (k, v, rest) =>
      match skipWs rest with
      | ',' :: rest2 =>
        match parseMembers fuel rest2 with
        | some (obj, r) => some ((k, v) :: obj, r)
        | none => none
      | other => some ([(k, v)], other)

def jsonParseFlat (s : String) : Option JsonObj :=
  match skipWs s.toList with
  | '{' :: rest =>
    match skipWs rest with
    | '}' :: tail => if skipWs tail = [] then some [] else none
    | cs =>
      match parseMembers (cs.length + 1) cs with
      | some (obj, tail) =>
        match skipWs tail with
        | '}' :: tail2 => if skipWs tail2 = [] then some obj else none
        | _ => none
      | none => none
  | _ => none

/-- Model of String.prototype.trim (and of the trim applied to the details
text of the builder): drop leading and trailing whitespace characters. -/
def jsTrim (s : String) : String :=
  String.mk ((skipWs ((skipWs s.data).reverse)).reverse)

/-- JavaScript property read on an object built by successive key assignments:
the last assignment wins, an absent key reads as `undefined` (`none`). -/
def jsGet (obj : JsonObj) (k : String) : Option String :=
  obj.foldl (fun acc kv => if kv.1 = k then some kv.2 else acc) none

/-! ### The field-extraction service -/

def missingKeyMsg : String := "Gemini API key is not configured."

def emptyResponseMsg : String := "AI did not return any content."

def authErrorMsg : String :=
  "The provided Gemini API key is not valid. Please check your configuration."

def genericErrorMsg : String :=
  "Failed to process images with AI. The AI may be temporarily unavailable or the request was blocked."

/-- Model of the SyntaxError message the JavaScript engine raises in JSON.parse
on malformed input; only its not containing "API key not valid" matters. -/
def malformedJsonMsg : String := "Unexpected token in JSON"

def startsWithChars : List Char → List Char → Bool
  | _, [] => true
  | [], _ :: _ => false
  | c :: cs, p :: ps => c == p && startsWithChars cs ps

def hasInfixChars (pat : List Char) : List Char → Bool
  | [] => startsWithChars [] pat
  | c :: cs => startsWithChars (c :: cs) pat || hasInfixChars pat cs

/-- Model of String.prototype.includes. -/
def strContains (s pat : String) : Bool := hasInfixChars pat.toList s.toList

/-- The body of the try block of `extractScheduleFromImages`, given the text of
a successful remote response: trim it, throw the empty-response error when it
is empty, otherwise parse it (a parse failure throws the
SyntaxError of the engine) and return the parsed object unchanged (the source casts the
parsed value to the record type without any field defaulting). -/
def tryBlock (responseText : String) : Except String JsonObj :=
  let jsonText := jsTrim responseText
  if jsonText = "" then Except.error emptyResponseMsg
  else
    match jsonParseFlat jsonText with
    | some obj => Except.ok obj
    | none => Except.error malformedJsonMsg

/-- The catch clause of `extractScheduleFromImages`: any error thrown inside
the try block (or by the remote call) is replaced by the authentication error
when its message contains "API key not valid", and by the generic extraction
error otherwise. -/
def catchWrap (r : Except String JsonObj) : Except String JsonObj :=
  match r with
  | Except.ok obj => Except.ok obj
  | Except.error m =>
    if strContains m "API key not valid" then Except.error authErrorMsg
    else Except.error genericErrorMsg

/-- Model of `extractScheduleFromImages` (service unit).  The image payloads do
not influence the claimed control flow; the remote call is modelled by its
outcome: either a thrown error message or the response body text. -/
def extractScheduleFromImages (apiKeyPresent : Bool) (remote : Except String String) :
    Except String JsonObj :=
  if apiKeyPresent = false then Except.error missingKeyMsg
  else
    match remote with
    | Except.error m => catchWrap (Except.error m)
    | Except.ok text => catchWrap (tryBlock text)

/-! ### Civil-calendar and epoch arithmetic (model of the Date machinery) -/

def isLeap (y : Int) : Bool := (y % 4 == 0 && y % 100 != 0) || y % 400 == 0

def daysInMonth (y m : Int) : Int :=
  if m = 2 then (if isLeap y then 29 else 28)
  else if m = 4 || m = 6 || m = 9 || m = 11 then 30
  else 31

/-- Days since the Unix epoch of a proleptic-Gregorian civil date. -/
def daysFromCivil (y m d : Int) : Int :=
  let yy := y - (if m ≤ 2 then 1 else 0)
  let era := Int.fdiv yy 400
  let yoe := yy - era * 400
  let mp := Int.fmod (m + 9) 12
  let doy := Int.fdiv (153 * mp + 2) 5 + d - 1
  let doe := yoe * 365 + Int.fdiv yoe 4 - Int.fdiv yoe 100 + doy
  era * 146097 + doe - 719468

/-- Civil date of a days-since-epoch count (inverse of `daysFromCivil`). -/
def civilFromDays (z0 : Int) : Int × Int × Int :=
  let z := z0 + 719468
  let era := Int.fdiv z 146097
  let doe := z - era * 146097
  let yoe := Int.fdiv (doe - Int.fdiv doe 1460 + Int.fdiv doe 36524 - Int.fdiv doe 146096) 365
  let y := yoe + era * 400
  let doy := doe - (365 * yoe + Int.fdiv yoe 4 - Int.fdiv yoe 100)
  let mp := Int.fdiv (5 * doy + 2) 153
  let d := doy - Int.fdiv (153 * mp + 2) 5 + 1
  let m := mp + (if mp < 10 then 3 else -9)
  (y + (if m ≤ 2 then 1 else 0), m, d)

def pad2 (n : Nat) : String := if n < 10 then "0" ++ toString n else toString n

def pad4 (n : Nat) : String :=
  if n < 10 then "000" ++ toString n
  else if n < 100 then "00" ++ toString n
  else if n < 1000 then "0" ++ toString n
  else toString n

/-- Compact UTC timestamp of an epoch instant counted in minutes: the result
of `toISOString` on the instant after the source strips dashes, colons and
the millisecond group, i.e. `YYYYMMDDTHHMM00Z`. -/
def isoBasic (em : Int) : String :=
  let day := Int.fdiv em 1440
  let rem := (em - day * 1440).toNat
  match civilFromDays day with
  | (y, m, d) =>
    pad4 y.toNat ++ pad2 m.toNat ++ pad2 d.toNat ++ "T" ++
      pad2 (rem / 60) ++ pad2 (rem % 60) ++ "00Z"

def digitVal (c : Char) : Option Nat :=
  if c.isDigit then some (c.toNat - 48) else none

/-- Parse a `"YYYY-MM-DDTHH:MM"` date-time string (the ECMAScript date-time
string format produced by the date and time form inputs and requested from
the model) into its civil fields, validating the calendar ranges; any other
shape is unparseable and yields `none`, as `new Date(...)` yields an invalid
date there. -/
def parseCivilDateTime (s : String) : Option (Int × Int × Int × Int × Int) :=
  match s.toList with
  | [y1, y2, y3, y4, c1, m1, m2, c2, d1, d2, c3, h1, h2, c4, n1, n2] =>
    if c1 = '-' && c2 = '-' && c3 = 'T' && c4 = ':' then
      match digitVal y1, digitVal y2, digitVal y3, digitVal y4, digitVal m1, digitVal m2,
            digitVal d1, digitVal d2, digitVal h1, digitVal h2, digitVal n1, digitVal n2 with
      | some a, some b, some c, some d, some e, some f,
        some g, some h, some i, some j, some k, some l =>
        let y : Int := Int.ofNat (a * 1000 + b * 100 + c * 10 + d)
        let mo : Int := Int.ofNat (e * 10 + f)
        let da : Int := Int.ofNat (g * 10 + h)
        let hr : Int := Int.ofNat (i * 10 + j)
        let mi : Int := Int.ofNat (k * 10 + l)
        if 1 ≤ mo && mo ≤ 12 && 1 ≤ da && da ≤ daysInMonth y mo && hr ≤ 23 && mi ≤ 59 then
          some (y, mo, da, hr, mi)
        else none
      | _, _, _, _, _, _, _, _, _, _, _, _ => none
    else none
  | _ => none

/-- Epoch minutes of a local civil date-time in a zone sitting `tz` minutes
east of UTC (the local zone of the browser, in which `new Date` interprets
offset-less date-time strings). -/
def epochMinutesLocal (tz y m d h mi : Int) : Int :=
  daysFromCivil y m d * 1440 + h * 60 + mi - tz

/-- Model of the `formatDateTime` helper of the source: build `dateStr + "T" + timeStr`,
parse it as a local date-time, and render the instant as a compact UTC
timestamp; `none` models the null returned on an invalid date. -/
def formatDateTime (tz : Int) (dateStr timeStr : String) : Option String :=
  (parseCivilDateTime (dateStr ++ "T" ++ timeStr)).map
    (fun t => isoBasic (epochMinutesLocal tz t.1 t.2.1 t.2.2.1 t.2.2.2.1 t.2.2.2.2))

/-! ### Form component state -/

structure CleaningScheduleData where
  area : String
  name : String
  phone : String
  date : String
  startTime : String
  endTime : String
  address : String
  notes : String
deriving DecidableEq, Repr

structure StatusMessage where
  text : String
  isError : Bool
deriving DecidableEq, Repr

/-- The component state: the form record, the selected files (by an abstract
file identifier), the preview handles, the loading flag, the status message
and the last generated calendar link. -/
structure AppState where
  formData : CleaningScheduleData
  selectedFiles : List String
  imagePreviews : List String
  isLoading : Bool
  message : Option StatusMessage
  calendarLink : String
deriving DecidableEq, Repr

/-! ### The calendar-link builder -/

def missingFieldsMsg : String := "錯誤：清潔日期、開始時間和結束時間為必填欄位。"

def badFormatMsg : String := "錯誤：日期時間格式無效，請檢查日期與時間欄位。"

def manualSuccessMsg : String := "手動生成成功，已開啟 Google 日曆事件頁面。"

def autoSuccessMsg : String := "AI 識別成功，已自動填表並開啟日曆頁面。"

def noFilesMsg : String := "錯誤：請先上傳包含預約資訊的圖片檔案。"

/-- Model of Array.prototype.join with a separator. -/
def joinSep (sep : String) : List String → String
  | [] => ""
  | [x] => x
  | x :: y :: xs => x ++ sep ++ joinSep sep (y :: xs)

/-- The titleParts value of the source: keep the truthy (non-empty) members of
area, name, phone and join them with the separator. -/
def titleJoin (area name phone : String) : String :=
  joinSep " | " (([area, name, phone]).filter (fun p => p ≠ ""))

/-- The eventTitle value of the source: a fixed literal followed by the joined parts, or
by the fallback literal when the join is empty (falsy). -/
def eventTitle (area name phone : String) : String :=
  "【清潔排班】" ++ (if titleJoin area name phone = "" then "新預約" else titleJoin area name phone)

def eventDetails (address notes : String) : String :=
  jsTrim ("服務地址：" ++ address ++ "\n" ++
    (if notes ≠ "" then "清潔要求/備註：" ++ notes else ""))

def hexDigitChar (n : Nat) : Char :=
  if n < 10 then Char.ofNat (48 + n) else Char.ofNat (55 + n)

def byteToHex (b : Nat) : String :=
  String.singleton (hexDigitChar (b / 16)) ++ String.singleton (hexDigitChar (b % 16))

def isFormSafe (b : Nat) : Bool :=
  (65 ≤ b && b ≤ 90) || (97 ≤ b && b ≤ 122) || (48 ≤ b && b ≤ 57) ||
    b == 42 || b == 45 || b == 46 || b == 95

/-- Percent-encoding of UTF-8 bytes in the application/x-www-form-urlencoded
serialization used by URLSearchParams. -/
def encodeBytes : List UInt8 → String
  | [] => ""
  | b :: bs =>
    let n := b.toNat
    (if n = 32 then "+"
     else if isFormSafe n then String.singleton (Char.ofNat n)
     else "%" ++ byteToHex n) ++ encodeBytes bs

def formEncode (s : String) : String := encodeBytes s.toUTF8.toList

/-- The final URL assembled from the query parameters, as URLSearchParams
serializes them in insertion order. -/
def renderUrl (ps : List (String × String)) : String :=
  "https://www.google.com/calendar/render?" ++
    String.intercalate "&" (ps.map (fun kv => formEncode kv.1 ++ "=" ++ formEncode kv.2))

/-- The pure core of `generateCalendarLink`: validate the record and either
produce the ordered query parameters of the calendar URL or the status
message of the validation failure.  The two validation checks follow the
source: required fields non-empty (truthy), then both combined date-times
parseable. -/
def generateCalendarLinkCore (tz : Int) (data : CleaningScheduleData) :
    Except StatusMessage (List (String × String)) :=
  if data.date = "" || data.startTime = "" || data.endTime = "" then
    Except.error ⟨missingFieldsMsg, true⟩
  else
    match formatDateTime tz data.date data.startTime, formatDateTime tz data.date data.endTime with
    | some startTs, some endTs =>
      Except.ok [("action", "TEMPLATE"),
                 ("text", eventTitle data.area data.name data.phone),
                 ("dates", startTs ++ "/" ++ endTs),
                 ("details", eventDetails data.address data.notes),
                 ("location", data.address),
                 ("ctz", "Asia/Taipei")]
    | _, _ => Except.error ⟨badFormatMsg, true⟩

/-- Model of `generateCalendarLink` as a state transformer: a validation
failure only sets the error message; success stores the rendered URL and
sets the manual or automatic success message. -/
def generateCalendarLink (tz : Int) (data : CleaningScheduleData) (isManual : Bool)
    (s : AppState) : AppState :=
  match generateCalendarLinkCore tz data with
  | Except.error m => { s with message := some m }
  | Except.ok ps =>
    { s with calendarLink := renderUrl ps,
             message := some ⟨if isManual then manualSuccessMsg else autoSuccessMsg, false⟩ }

/-! ### File selection and preview lifecycle -/

inductive UrlEvent
  | revoke (url : String)
  | create (url : String)
deriving DecidableEq, Repr

def isRevokeOf (u : String) (e : UrlEvent) : Bool := e = UrlEvent.revoke u

def isRevokeEvent : UrlEvent → Bool
  | UrlEvent.revoke _ => true
  | UrlEvent.create _ => false

/-- Model of `handleFileChange`: clear the message and the link, store the new
selection, revoke every current preview handle, then create previews for the
new files (none when the selection is empty).  `mkUrl` models
URL.createObjectURL.  The second component is the ordered trace of object-URL
calls the handler itself performs. -/
def handleFileChange (files : List String) (mkUrl : String → String) (s : AppState) :
    AppState × List UrlEvent :=
  let previews := if files.length > 0 then files.map mkUrl else []
  ({ s with message := none, calendarLink := "", selectedFiles := files,
            imagePreviews := previews },
   s.imagePreviews.map UrlEvent.revoke ++ previews.map UrlEvent.create)

/-- The effect cleanup over a previews value: revoke each of its handles. -/
def effectCleanup (oldPreviews : List String) : List UrlEvent :=
  oldPreviews.map UrlEvent.revoke

/-- A complete file-selection step: the change handler runs, and after the
previews state updates, the framework runs the cleanup of the previous
effect, which revokes the previous previews value once more. -/
def fileSelection (files : List String) (mkUrl : String → String) (s : AppState) :
    AppState × List UrlEvent :=
  let r := handleFileChange files mkUrl s
  (r.1, r.2 ++ effectCleanup s.imagePreviews)

/-! ### The submission lifecycle -/

/-- The synchronous prologue of `handleProcessImages`: with no selected files
it only sets the error message; otherwise it raises the loading flag and
clears the message and the link before awaiting the extraction. -/
def handleProcessImagesStart (s : AppState) : AppState :=
  if s.selectedFiles.length = 0 then { s with message := some ⟨noFilesMsg, true⟩ }
  else { s with isLoading := true, message := none, calendarLink := "" }

/-- The continuation of `handleProcessImages` once the extraction settles:
on success the record is replaced by the extracted data and the builder runs
in automatic mode; on failure the wrapped error message is shown; the
finally clause always lowers the loading flag. -/
def handleProcessImagesFinish (tz : Int) (outcome : Except String CleaningScheduleData)
    (s : AppState) : AppState :=
  match outcome with
  | Except.ok d =>
    let s1 := generateCalendarLink tz d false { s with formData := d }
    { s1 with isLoading := false }
  | Except.error m =>
    { s with message := some ⟨"自動識別失敗：" ++ m ++ " 請檢查圖片清晰度，或手動輸入資料。", true⟩,
             isLoading := false }

/-- A full auto-submit: the prologue, then, when it proceeded past the
file-selection guard, the continuation with the extraction outcome. -/
def autoSubmit (tz : Int) (outcome : Except String CleaningScheduleData) (s : AppState) :
    AppState :=
  if s.selectedFiles.length = 0 then handleProcessImagesStart s
  else handleProcessImagesFinish tz outcome (handleProcessImagesStart s)

/-- The manual button: run the builder in manual mode on the current record. -/
def manualSubmit (tz : Int) (s : AppState) : AppState :=
  generateCalendarLink tz s.formData true s

instance exceptDecEq {ε α : Type} [DecidableEq ε] [DecidableEq α] : DecidableEq (Except ε α) :=
  fun x y =>
    match x, y with
    | Except.ok a, Except.ok b =>
      if h : a = b then isTrue (by rw [h]) else isFalse (fun hc => h (Except.ok.inj hc))
    | Except.error a, Except.error b =>
      if h : a = b then isTrue (by rw [h]) else isFalse (fun hc => h (Except.error.inj hc))
    | Except.ok _, Except.error _ => isFalse (fun hc => Except.noConfusion hc)
    | Except.error _, Except.ok _ => isFalse (fun hc => Except.noConfusion hc)

/-! ### Concrete example inputs used by the closed theorems -/

def emptyData : CleaningScheduleData :=
  { area := "", name := "", phone := "", date := "",
    startTime := "", endTime := "", address := "", notes := "" }

def baseState : AppState :=
  { formData := emptyData, selectedFiles := [], imagePreviews := [],
    isLoading := false, message := none, calendarLink := "" }

/-- A record whose date is empty (invalid for link generation). -/
def exDataEmptyDate : CleaningScheduleData :=
  { emptyData with startTime := "09:00", endTime := "10:00" }

/-- A prior state carrying a visible message and a generated link, with an
invalid (empty-date) record. -/
def exStalePrev : AppState :=
  { baseState with message := some ⟨"先前訊息", false⟩, calendarLink := "PREV" }

/-- A valid record whose time range crosses UTC midnight when the local zone
sits 480 minutes east of UTC. -/
def exDataCross : CleaningScheduleData :=
  { emptyData with date := "2024-01-01", startTime := "07:00", endTime := "09:00" }

/-- A valid record staying inside one UTC day at offset 480. -/
def exDataValid : CleaningScheduleData :=
  { emptyData with date := "2024-01-01", startTime := "09:00", endTime := "10:00" }

/-- The query parameters the builder produces for `exDataValid` at offset 480. -/
def exPsValid : List (String × String) :=
  [("action", "TEMPLATE"),
   ("text", "【清潔排班】新預約"),
   ("dates", "20240101T010000Z/20240101T020000Z"),
   ("details", "服務地址："),
   ("location", ""),
   ("ctz", "Asia/Taipei")]

/-- A state with one selected file. -/
def exStateOneFile : AppState :=
  { baseState with selectedFiles := ["f1"] }

/-- A state with one live preview handle. -/
def exStatePreview : AppState :=
  { baseState with selectedFiles := ["f1"], imagePreviews := ["u1"] }

/-! ### Helper lemmas -/

theorem gcl_formData (tz : Int) (d : CleaningScheduleData) (b : Bool) (s : AppState) :
    (generateCalendarLink tz d b s).formData = s.formData := by
  unfold generateCalendarLink; split <;> rfl

theorem gcl_isLoading (tz : Int) (d : CleaningScheduleData) (b : Bool) (s : AppState) :
    (generateCalendarLink tz d b s).isLoading = s.isLoading := by
  unfold generateCalendarLink; split <;> rfl

theorem gcl_message_isSome (tz : Int) (d : CleaningScheduleData) (b : Bool) (s : AppState) :
    ((generateCalendarLink tz d b s).message).isSome = true := by
  unfold generateCalendarLink; split <;> rfl

theorem renderUrl_ne_empty (ps : List (String × String)) : ¬ renderUrl ps = "" := by
  intro h
  have h2 := congrArg String.length h
  rw [renderUrl, String.length_append] at h2
  simp at h2
  exact absurd h2.1 (by decide)

theorem coreInvalid (tz : Int) (data : CleaningScheduleData)
    (h : data.date = "" ∨ data.startTime = "" ∨ data.endTime = "" ∨
         formatDateTime tz data.date data.startTime = none ∨
         formatDateTime tz data.date data.endTime = none) :
    generateCalendarLinkCore tz data = Except.error ⟨missingFieldsMsg, true⟩ ∨
    generateCalendarLinkCore tz data = Except.error ⟨badFormatMsg, true⟩ := by
  unfold generateCalendarLinkCore
  by_cases hc : (data.date = "" || data.startTime = "" || data.endTime = "") = true
  · left; simp only [hc, if_true]
  · rcases h with h | h | h | h | h
    · exact absurd (by simp [h]) hc
    · exact absurd (by simp [h]) hc
    · exact absurd (by simp [h]) hc
    · right; simp only [hc, if_false, Bool.false_eq_true]
      split
      · rename_i heq1 heq2; rw [h] at heq1; cases heq1
      · rfl
    · right; simp only [hc, if_false, Bool.false_eq_true]
      split
      · rename_i heq1 heq2; rw [h] at heq2; cases heq2
      · rfl

theorem jsGet_foldl_acc (k : String) (obj : JsonObj) (acc : Option String)
    (h : ∀ v, ¬ (k, v) ∈ obj) :
    obj.foldl (fun a kv => if kv.1 = k then some kv.2 else a) acc = acc := by
  induction obj generalizing acc with
  | nil => rfl
  | cons q rest ih =>
    have hq : ¬ q.1 = k := by
      intro hk
      exact h q.2 (by simp [← hk])
    rw [List.foldl_cons]
    rw [if_neg hq]
    exact ih acc (fun v hv => h v (List.mem_cons_of_mem q hv))

/-- C1 (corrected), counterexample: on a response body that omits every
field, the service returns the parsed object verbatim, so the `area` field of
the returned record is absent (`none`), not the empty string. -/
theorem extract_omitted_field_cex :
    extractScheduleFromImages true (Except.ok "\x7b\x7d") = Except.ok []
  ∧ jsGet ([] : JsonObj) "area" = none
  ∧ ¬ jsGet ([] : JsonObj) "area" = some "" := by
  refine ⟨rfl, rfl, by decide⟩

/-- C1 (corrected): the service returns the parsed response object verbatim,
with no field defaulting, so every field omitted from the JSON body stays
absent (undefined) in the returned record. -/
theorem extract_returns_parsed_verbatim (text : String) (obj : JsonObj)
    (h : tryBlock text = Except.ok obj) :
    extractScheduleFromImages true (Except.ok text) = Except.ok obj
  ∧ ∀ k, (∀ v, ¬ (k, v) ∈ obj) → jsGet obj k = none := by
  constructor
  · show catchWrap (tryBlock text) = Except.ok obj
    rw [h]
    rfl
  · intro k hk
    exact jsGet_foldl_acc k obj none hk

theorem extract_returns_parsed_verbatim_wit :
    tryBlock "\x7b\x7d" = Except.ok []
  ∧ (extractScheduleFromImages true (Except.ok "\x7b\x7d") = Except.ok ([] : JsonObj)
     ∧ ∀ k, (∀ v, ¬ (k, v) ∈ ([] : JsonObj)) → jsGet ([] : JsonObj) k = none) :=
  ⟨rfl, extract_returns_parsed_verbatim "\x7b\x7d" [] rfl⟩

/-- C2 (corrected), counterexample: on an empty response body the surfaced
error is the generic extraction failure, not the distinct empty-response
error (the empty-response throw happens inside the same try block and the
catch clause re-wraps it). -/
theorem empty_response_error_swallowed_cex :
    extractScheduleFromImages true (Except.ok "") = Except.error genericErrorMsg
  ∧ ¬ extractScheduleFromImages true (Except.ok "") = Except.error emptyResponseMsg
  ∧ ¬ genericErrorMsg = emptyResponseMsg := by
  refine ⟨rfl, by decide, by decide⟩

/-- C2 (corrected): every empty and every malformed response body surfaces the
generic extraction failure; the dedicated empty-response error message is
constructed but never surfaced. -/
theorem empty_or_malformed_surfaces_generic (text : String)
    (h : jsTrim text = "" ∨ jsonParseFlat (jsTrim text) = none) :
    extractScheduleFromImages true (Except.ok text) = Except.error genericErrorMsg := by
  unfold extractScheduleFromImages catchWrap tryBlock
  by_cases he : jsTrim text = ""
  · simp only [he, if_true]
    norm_num
    decide
  · rcases h with h | h
    · exact absurd h he
    · simp only [he, if_false]
      rw [h]
      norm_num
      decide

theorem empty_or_malformed_surfaces_generic_wit :
    (jsTrim "" = "" ∨ jsonParseFlat (jsTrim "") = none)
  ∧ extractScheduleFromImages true (Except.ok "") = Except.error genericErrorMsg :=
  ⟨Or.inl rfl, empty_or_malformed_surfaces_generic "" (Or.inl rfl)⟩

/-- C3 (corrected), counterexample: a manual submission over a prior state
carrying a generated link and a visible message does not clear them: with an
invalid record the prior link survives the submission unchanged (and the
message is replaced, not cleared). -/
theorem manual_submit_does_not_clear_cex :
    (manualSubmit 480 exStalePrev).calendarLink = "PREV"
  ∧ ¬ ("PREV" : String) = ""
  ∧ ¬ (manualSubmit 480 exStalePrev).message = none := by
  refine ⟨rfl, by decide, by decide⟩

/-- C3 (corrected): a new file selection clears the message and the link, and
so does an automatic submission that passes the non-empty-selection guard; an
automatic submission with no files selected sets an error message and leaves
the link unchanged, and a manual submission never clears the link (it leaves
it unchanged or replaces it with a non-empty URL). -/
theorem clearing_on_selection_and_auto_submit (files : List String)
    (mkUrl : String → String) (s1 s2 s3 s4 : AppState) (tz : Int)
    (h2 : ¬ s2.selectedFiles = []) (h3 : s3.selectedFiles = []) :
    ((fileSelection files mkUrl s1).1.message = none
      ∧ (fileSelection files mkUrl s1).1.calendarLink = "")
  ∧ ((handleProcessImagesStart s2).message = none
      ∧ (handleProcessImagesStart s2).calendarLink = "")
  ∧ ((handleProcessImagesStart s3).message = some ⟨noFilesMsg, true⟩
      ∧ (handleProcessImagesStart s3).calendarLink = s3.calendarLink)
  ∧ ((manualSubmit tz s4).calendarLink = s4.calendarLink
      ∨ ¬ (manualSubmit tz s4).calendarLink = "") := by
  refine ⟨⟨rfl, rfl⟩, ?_, ?_, ?_⟩
  · have hl : ¬ s2.selectedFiles.length = 0 := fun hc => h2 (List.length_eq_zero.mp hc)
    unfold handleProcessImagesStart
    rw [if_neg hl]
    exact ⟨rfl, rfl⟩
  · have hl : s3.selectedFiles.length = 0 := by rw [h3]; rfl
    unfold handleProcessImagesStart
    rw [if_pos hl]
    exact ⟨rfl, rfl⟩
  · unfold manualSubmit generateCalendarLink
    split
    · left; rfl
    · right
      exact renderUrl_ne_empty _

theorem clearing_on_selection_and_auto_submit_wit :
    (¬ exStateOneFile.selectedFiles = [] ∧ baseState.selectedFiles = [])
  ∧ (((fileSelection ["f2"] (fun u => u) exStalePrev).1.message = none
      ∧ (fileSelection ["f2"] (fun u => u) exStalePrev).1.calendarLink = "")
    ∧ ((handleProcessImagesStart exStateOneFile).message = none
      ∧ (handleProcessImagesStart exStateOneFile).calendarLink = "")
    ∧ ((handleProcessImagesStart baseState).message = some ⟨noFilesMsg, true⟩
      ∧ (handleProcessImagesStart baseState).calendarLink = baseState.calendarLink)
    ∧ ((manualSubmit 480 exStalePrev).calendarLink = exStalePrev.calendarLink
      ∨ ¬ (manualSubmit 480 exStalePrev).calendarLink = "")) :=
  ⟨⟨by decide, rfl⟩,
   clearing_on_selection_and_auto_submit ["f2"] (fun u => u) exStalePrev exStateOneFile
     baseState exStalePrev 480 (by decide) rfl⟩

/-- C4 (confirmed): on a record whose date, start time or end time is empty
or does not combine into a parseable date-time, the builder leaves the stored
link unchanged, sets one of the two invalid-schedule error messages, and
behaves identically in automatic and manual mode. -/
theorem invalid_schedule_fails_and_keeps_link (tz : Int) (data : CleaningScheduleData)
    (s : AppState) (b : Bool)
    (h : data.date = "" ∨ data.startTime = "" ∨ data.endTime = "" ∨
         formatDateTime tz data.date data.startTime = none ∨
         formatDateTime tz data.date data.endTime = none) :
    (generateCalendarLink tz data b s).calendarLink = s.calendarLink
  ∧ ((generateCalendarLink tz data b s).message = some ⟨missingFieldsMsg, true⟩
      ∨ (generateCalendarLink tz data b s).message = some ⟨badFormatMsg, true⟩)
  ∧ generateCalendarLink tz data true s = generateCalendarLink tz data false s := by
  rcases coreInvalid tz data h with hc | hc <;>
    (unfold generateCalendarLink; rw [hc]; exact ⟨rfl, by simp, rfl⟩)

theorem invalid_schedule_fails_and_keeps_link_wit :
    (exDataEmptyDate.date = "" ∨ exDataEmptyDate.startTime = ""
      ∨ exDataEmptyDate.endTime = ""
      ∨ formatDateTime 480 exDataEmptyDate.date exDataEmptyDate.startTime = none
      ∨ formatDateTime 480 exDataEmptyDate.date exDataEmptyDate.endTime = none)
  ∧ ((generateCalendarLink 480 exDataEmptyDate true exStalePrev).calendarLink
        = exStalePrev.calendarLink
    ∧ ((generateCalendarLink 480 exDataEmptyDate true exStalePrev).message
          = some ⟨missingFieldsMsg, true⟩
        ∨ (generateCalendarLink 480 exDataEmptyDate true exStalePrev).message
          = some ⟨badFormatMsg, true⟩)
    ∧ generateCalendarLink 480 exDataEmptyDate true exStalePrev
        = generateCalendarLink 480 exDataEmptyDate false exStalePrev) :=
  ⟨Or.inl rfl,
   invalid_schedule_fails_and_keeps_link 480 exDataEmptyDate exStalePrev true (Or.inl rfl)⟩

/-- C5 (confirmed): extraction is atomic over the form record: on success the
record is replaced entirely by the extracted data (no field carried over),
and on failure the prior record is untouched and an error status message is
shown. -/
theorem extraction_replaces_record_atomically (tz : Int) (s : AppState)
    (d : CleaningScheduleData) (m : String) :
    (handleProcessImagesFinish tz (Except.ok d) s).formData = d
  ∧ (handleProcessImagesFinish tz (Except.error m) s).formData = s.formData
  ∧ ∃ t, (handleProcessImagesFinish tz (Except.error m) s).message = some ⟨t, true⟩ := by
  refine ⟨?_, rfl, ⟨_, rfl⟩⟩
  show (generateCalendarLink tz d false { s with formData := d }).formData = d
  rw [gcl_formData]

/-- C6 (confirmed): the event title joins the non-empty members of
(area, name, phone) with the separator, omitting empty fields without
duplicating the separator, and falls back to the fixed literal when all
three are empty. -/
theorem title_join_composition (a n : String) (ha : ¬ a = "") (hn : ¬ n = "") :
    titleJoin "中山區" "王小明" "" = "中山區 | 王小明"
  ∧ eventTitle "" "" "" = "【清潔排班】新預約"
  ∧ titleJoin a n "" = a ++ " | " ++ n
  ∧ titleJoin a "" "" = a := by
  refine ⟨rfl, rfl, ?_, ?_⟩
  · unfold titleJoin
    simp only [List.filter, ha, hn, decide_not]
    simp [joinSep]
  · unfold titleJoin
    simp only [List.filter, ha, decide_not]
    simp [joinSep]

theorem title_join_composition_wit :
    (¬ ("大安區" : String) = "" ∧ ¬ ("林四" : String) = "")
  ∧ (titleJoin "中山區" "王小明" "" = "中山區 | 王小明"
    ∧ eventTitle "" "" "" = "【清潔排班】新預約"
    ∧ titleJoin "大安區" "林四" "" = "大安區" ++ " | " ++ "林四"
    ∧ titleJoin "大安區" "" "" = "大安區") :=
  ⟨⟨by decide, by decide⟩, title_join_composition "大安區" "林四" (by decide) (by decide)⟩

/-- C7 (corrected), counterexample: at local offset 480 (the pinned civil
zone), the valid triple 2024-01-01 with 07:00 < 09:00 on the same date
renders to compact UTC timestamps whose first eight characters (the date
component) differ, so the two timestamps do not differ only in their time
component. -/
theorem dates_param_crosses_utc_midnight_cex :
    formatDateTime 480 exDataCross.date exDataCross.startTime = some "20231231T230000Z"
  ∧ formatDateTime 480 exDataCross.date exDataCross.endTime = some "20240101T010000Z"
  ∧ ¬ ("20231231T230000Z" : String).take 8 = ("20240101T010000Z" : String).take 8
  ∧ generateCalendarLinkCore 480 exDataCross =
      Except.ok [("action", "TEMPLATE"),
                 ("text", "【清潔排班】新預約"),
                 ("dates", "20231231T230000Z/20240101T010000Z"),
                 ("details", "服務地址："),
                 ("location", ""),
                 ("ctz", "Asia/Taipei")] := by
  refine ⟨rfl, rfl, by decide, rfl⟩

/-- C7 (corrected): for every valid triple, the dates parameter is exactly
startUTCbasic/endUTCbasic and the two UTC instants differ by exactly the
difference of the input time offsets; the two rendered timestamps need not
share their date component (the interval can cross a UTC day boundary). -/
theorem dates_param_utc_render_amended (tz : Int) (data : CleaningScheduleData)
    (y mo da h1 mi1 h2 mi2 : Int)
    (hde : ¬ data.date = "") (hse : ¬ data.startTime = "") (hee : ¬ data.endTime = "")
    (hp1 : parseCivilDateTime (data.date ++ "T" ++ data.startTime) = some (y, mo, da, h1, mi1))
    (hp2 : parseCivilDateTime (data.date ++ "T" ++ data.endTime) = some (y, mo, da, h2, mi2))
    (hlt : h1 * 60 + mi1 < h2 * 60 + mi2) :
    (generateCalendarLinkCore tz data).toOption.bind (List.lookup "dates") =
      some (isoBasic (epochMinutesLocal tz y mo da h1 mi1) ++ "/" ++
            isoBasic (epochMinutesLocal tz y mo da h2 mi2))
  ∧ epochMinutesLocal tz y mo da h2 mi2 - epochMinutesLocal tz y mo da h1 mi1 =
      (h2 * 60 + mi2) - (h1 * 60 + mi1) := by
  constructor
  · have hf1 : formatDateTime tz data.date data.startTime =
        some (isoBasic (epochMinutesLocal tz y mo da h1 mi1)) := by
      unfold formatDateTime
      rw [hp1]
      rfl
    have hf2 : formatDateTime tz data.date data.endTime =
        some (isoBasic (epochMinutesLocal tz y mo da h2 mi2)) := by
      unfold formatDateTime
      rw [hp2]
      rfl
    have hc : (data.date = "" || data.startTime = "" || data.endTime = "") = false := by
      simp [hde, hse, hee]
    unfold generateCalendarLinkCore
    rw [hc, hf1, hf2]
    rfl
  · unfold epochMinutesLocal
    ring

theorem dates_param_utc_render_amended_wit :
    ((¬ exDataValid.date = "" ∧ ¬ exDataValid.startTime = "" ∧ ¬ exDataValid.endTime = "")
  ∧ parseCivilDateTime (exDataValid.date ++ "T" ++ exDataValid.startTime)
      = some (2024, 1, 1, 9, 0)
  ∧ parseCivilDateTime (exDataValid.date ++ "T" ++ exDataValid.endTime)
      = some (2024, 1, 1, 10, 0)
  ∧ (9 : Int) * 60 + 0 < 10 * 60 + 0)
  ∧ ((generateCalendarLinkCore 480 exDataValid).toOption.bind (List.lookup "dates") =
      some (isoBasic (epochMinutesLocal 480 2024 1 1 9 0) ++ "/" ++
            isoBasic (epochMinutesLocal 480 2024 1 1 10 0))
    ∧ epochMinutesLocal 480 2024 1 1 10 0 - epochMinutesLocal 480 2024 1 1 9 0 =
        (10 * 60 + 0) - (9 * 60 + 0)) :=
  ⟨⟨⟨by decide, by decide, by decide⟩, rfl, rfl, by decide⟩,
   dates_param_utc_render_amended 480 exDataValid 2024 1 1 9 0 10 0
     (by decide) (by decide) (by decide) rfl rfl (by decide)⟩

/-- C8 (corrected), counterexample: with one prior preview handle, a new
selection produces two release calls for that handle (one in the change
handler, one from the effect cleanup), not one. -/
theorem preview_revoked_twice_cex :
    (fileSelection ["f2"] (fun u => u ++ "-url") exStatePreview).2.countP (isRevokeOf "u1") = 2
  ∧ exStatePreview.imagePreviews.length = 1
  ∧ ¬ (fileSelection ["f2"] (fun u => u ++ "-url") exStatePreview).2.countP (isRevokeOf "u1")
      = exStatePreview.imagePreviews.length := by
  refine ⟨rfl, rfl, by decide⟩

/-- C8 (corrected): selecting a new set of files releases every prior preview
handle before any new handle is created, but each prior handle receives two
release calls in total (the synchronous pass of the change handler and the effect
cleanup), so release calls total twice the prior preview count. -/
theorem preview_release_before_create_twice (files : List String)
    (mkUrl : String → String) (s : AppState) (u : String) :
    (fileSelection files mkUrl s).2.take s.imagePreviews.length
      = s.imagePreviews.map UrlEvent.revoke
  ∧ (fileSelection files mkUrl s).2.countP (isRevokeOf u)
      = 2 * s.imagePreviews.countP (fun v => v = u)
  ∧ (fileSelection files mkUrl s).2.countP isRevokeEvent = 2 * s.imagePreviews.length := by
  have htr : (fileSelection files mkUrl s).2 =
      s.imagePreviews.map UrlEvent.revoke ++
        ((if files.length > 0 then files.map mkUrl else []).map UrlEvent.create ++
          s.imagePreviews.map UrlEvent.revoke) := by
    unfold fileSelection handleFileChange effectCleanup
    simp [List.append_assoc]
  have hrev : ∀ l : List String,
      (l.map UrlEvent.revoke).countP (isRevokeOf u) = l.countP (fun v => v = u) := by
    intro l
    rw [List.countP_map]
    apply List.countP_congr
    intro v _
    simp [isRevokeOf, Function.comp]
  have hcre : ∀ l : List String, (l.map UrlEvent.create).countP (isRevokeOf u) = 0 := by
    intro l
    rw [List.countP_map]
    apply List.countP_eq_zero.mpr
    intro v _
    simp [isRevokeOf, Function.comp]
  refine ⟨?_, ?_, ?_⟩
  · rw [htr]
    exact List.take_left' (by rw [List.length_map])
  · rw [htr, List.countP_append, List.countP_append, hrev, hcre]
    ring
  · rw [htr, List.countP_append, List.countP_append]
    have h1 : ∀ l : List String, (l.map UrlEvent.revoke).countP isRevokeEvent = l.length := by
      intro l
      rw [List.countP_map]
      have : (isRevokeEvent ∘ UrlEvent.revoke) = fun _ => true := by
        funext v; rfl
      rw [this, congrFun List.countP_true l]
    have h2 : ∀ l : List String, (l.map UrlEvent.create).countP isRevokeEvent = 0 := by
      intro l
      rw [List.countP_map]
      apply List.countP_eq_zero.mpr
      intro v _
      simp [isRevokeEvent, Function.comp]
    rw [h1, h2]
    ring

/-- C9 (corrected), counterexample: an auto-submit with no files selected
never enters the Extracting state: the loading flag stays false and an error
message is set instead. -/
theorem auto_submit_no_files_stays_idle_cex :
    (autoSubmit 480 (Except.error "e") baseState).isLoading = false
  ∧ (autoSubmit 480 (Except.error "e") baseState).message = some ⟨noFilesMsg, true⟩
  ∧ ¬ (handleProcessImagesStart baseState).isLoading = true := by
  refine ⟨rfl, rfl, by decide⟩

/-- C9 (corrected): an auto-submit with a non-empty selection moves to the
Extracting state (loading flag raised, trigger disabled) and, whatever the
outcome, completes back to Idle with the loading flag lowered and exactly one
status message set; an auto-submit with no files stays Idle with one error
message; a manual submission never changes the loading flag. -/
theorem submission_lifecycle_amended (tz : Int) (s1 s2 s3 : AppState)
    (outcome : Except String CleaningScheduleData)
    (h1 : ¬ s1.selectedFiles = []) (h2 : s2.selectedFiles = []) :
    (handleProcessImagesStart s1).isLoading = true
  ∧ (handleProcessImagesStart s1).message = none
  ∧ (autoSubmit tz outcome s1).isLoading = false
  ∧ ((autoSubmit tz outcome s1).message).isSome = true
  ∧ (autoSubmit tz outcome s2).isLoading = s2.isLoading
  ∧ (autoSubmit tz outcome s2).message = some ⟨noFilesMsg, true⟩
  ∧ (manualSubmit tz s3).isLoading = s3.isLoading := by
  have hl1 : ¬ s1.selectedFiles.length = 0 := fun hc => h1 (List.length_eq_zero.mp hc)
  have hl2 : s2.selectedFiles.length = 0 := by rw [h2]; rfl
  have hstart : handleProcessImagesStart s1 =
      { s1 with isLoading := true, message := none, calendarLink := "" } := by
    unfold handleProcessImagesStart
    rw [if_neg hl1]
  have hauto1 : autoSubmit tz outcome s1 =
      handleProcessImagesFinish tz outcome (handleProcessImagesStart s1) := by
    unfold autoSubmit
    rw [if_neg hl1]
  have hauto2 : autoSubmit tz outcome s2 = handleProcessImagesStart s2 := by
    unfold autoSubmit
    rw [if_pos hl2]
  have hstart2 : handleProcessImagesStart s2 =
      { s2 with message := some ⟨noFilesMsg, true⟩ } := by
    unfold handleProcessImagesStart
    rw [if_pos hl2]
  refine ⟨by rw [hstart], by rw [hstart], ?_, ?_, ?_, ?_, gcl_isLoading tz s3.formData true s3⟩
  · rw [hauto1]
    cases outcome with
    | ok d => rfl
    | error m => rfl
  · rw [hauto1]
    cases outcome with
    | ok d =>
      show ((generateCalendarLink tz d false _).message).isSome = true
      rw [gcl_message_isSome]
    | error m => rfl
  · rw [hauto2, hstart2]
  · rw [hauto2, hstart2]

theorem submission_lifecycle_amended_wit :
    (¬ exStateOneFile.selectedFiles = [] ∧ baseState.selectedFiles = [])
  ∧ ((handleProcessImagesStart exStateOneFile).isLoading = true
    ∧ (handleProcessImagesStart exStateOneFile).message = none
    ∧ (autoSubmit 480 (Except.error "網路錯誤") exStateOneFile).isLoading = false
    ∧ ((autoSubmit 480 (Except.error "網路錯誤") exStateOneFile).message).isSome = true
    ∧ (autoSubmit 480 (Except.error "網路錯誤") baseState).isLoading = baseState.isLoading
    ∧ (autoSubmit 480 (Except.error "網路錯誤") baseState).message = some ⟨noFilesMsg, true⟩
    ∧ (manualSubmit 480 exStalePrev).isLoading = exStalePrev.isLoading) :=
  ⟨⟨by decide, rfl⟩,
   submission_lifecycle_amended 480 exStateOneFile baseState exStalePrev
     (Except.error "網路錯誤") (by decide) rfl⟩

/-- C10 (confirmed): whenever the builder accepts a record, the text query
parameter of the produced URL begins with the fixed literal title marker, and
when area, name and phone are all empty it is exactly the marker followed by
the fallback literal. -/
theorem text_param_begins_with_marker (tz : Int) (data : CleaningScheduleData)
    (ps : List (String × String))
    (h : generateCalendarLinkCore tz data = Except.ok ps) :
    (∃ rest, List.lookup "text" ps = some ("【清潔排班】" ++ rest))
  ∧ (data.area = "" → data.name = "" → data.phone = "" →
      List.lookup "text" ps = some "【清潔排班】新預約") := by
  unfold generateCalendarLinkCore at h
  split at h
  · cases h
  · split at h
    · rename_i startTs endTs heq1 heq2
      cases h
      constructor
      · exact ⟨if titleJoin data.area data.name data.phone = "" then "新預約"
                else titleJoin data.area data.name data.phone, rfl⟩
      · intro h1 h2 h3
        rw [h1, h2, h3]
        rfl
    · cases h

theorem text_param_begins_with_marker_wit :
    generateCalendarLinkCore 480 exDataValid = Except.ok exPsValid
  ∧ ((∃ rest, List.lookup "text" exPsValid = some ("【清潔排班】" ++ rest))
    ∧ (exDataValid.area = "" → exDataValid.name = "" → exDataValid.phone = "" →
        List.lookup "text" exPsValid = some "【清潔排班】新預約")) :=
  ⟨rfl, text_param_begins_with_marker 480 exDataValid exPsValid rfl⟩
